import Mathlib

deriving instance DecidableEq for Except

/-!
Verification of the Stream/Device model of `device.cpp` (lab_device).

The C++ classes are shallowly embedded:
* `Stream` is a record of a name and a rational mass flow (`double` is
  modelled by `ℚ`; all arithmetic performed by the program is addition and
  division, which the claims treat as exact up to a 0.01 tolerance).
* `shared_ptr<Stream>` identity is modelled by a `StreamId`; the heap of
  streams is a function `Store : StreamId → Stream`.  Two devices (or two
  slots of one device) that hold the same `StreamId` alias the same stream.
* `Device`, `Mixer`, `Reactor` become a single record with a `kind` tag;
  virtual dispatch in `addInput` / `addOutput` / `updateOutputs` /
  `getDeviceType` becomes a match on the tag.  The C++ `int` capacity
  fields are modelled by `Nat` (every assignment in the source is a
  non-negative constant or constructor argument).
* a C++ method that can `throw` returns `Except DevError _`; for
  `updateOutputs` the result also carries the device and store as they are
  when the call ends, so that "state unchanged on failure" is expressible.
-/

namespace LabDevice

/-- C++ class `Stream`: a chemical stream with a name and a mass flow. -/
structure Stream where
  name : String
  mass_flow : ℚ
deriving DecidableEq

instance : Inhabited Stream := ⟨⟨"", 0⟩⟩

/-- Identity of a `shared_ptr<Stream>`. -/
abbrev StreamId := Nat

/-- The heap of shared streams. -/
abbrev Store := StreamId → Stream

/-- `Stream::Stream(int s)`: name "s<N>", mass flow 0. -/
def Stream.create (s : Int) : Stream := { name := "s" ++ toString s, mass_flow := 0 }

/-- `stream->getMassFlow()` for the stream with identity `i`. -/
def Store.massFlow (σ : Store) (i : StreamId) : ℚ := (σ i).mass_flow

/-- `stream->getName()` for the stream with identity `i`. -/
def Store.name (σ : Store) (i : StreamId) : String := (σ i).name

/-- `stream->setMassFlow(m)` for the stream with identity `i` (name kept). -/
def Store.setMassFlow (σ : Store) (i : StreamId) (m : ℚ) : Store :=
  fun j => if j = i then { σ j with mass_flow := m } else σ j

/-- The two error channels of the source: plain `throw string(...)`, and
`RecycleException(deviceType, streamName)`. -/
inductive DevError where
  | strErr : String → DevError
  | recycle : String → String → DevError
deriving DecidableEq

/-- `RecycleException::what()` (for `strErr` the thrown string itself). -/
def DevError.what : DevError → String
  | .strErr s => s
  | .recycle deviceType streamName =>
      "RECYCLE DETECTED: " ++ deviceType ++ " has calculated output stream " ++ streamName

/-- Closed set of concrete device classes. -/
inductive DeviceKind where
  | base
  | mixer
  | reactor
deriving DecidableEq

/-- `const int MIXER_OUTPUTS = 1;` -/
def MIXER_OUTPUTS : Nat := 1

/-- State of a `Device` object (fields of `CalculatedDevice`, `Device` and
`Mixer::_inputs_count`, plus the dynamic-type tag).  `inputs_count` models
`Mixer::_inputs_count` and is used only by `Mixer::addInput`. -/
structure Device where
  kind : DeviceKind
  inputs : List StreamId
  outputs : List StreamId
  inputAmount : Nat
  outputAmount : Nat
  inputs_count : Nat
  calculated : Bool
deriving DecidableEq

/-- `Device::Device()` (all fields at their in-class initialisers). -/
def mkDevice : Device :=
  { kind := .base
    inputs := []
    outputs := []
    inputAmount := 0
    outputAmount := 0
    inputs_count := 0
    calculated := false }

/-- `Mixer::Mixer(int inputs_count)`. -/
def mkMixer (n : Nat) : Device :=
  { mkDevice with
      kind := .mixer
      inputAmount := n
      outputAmount := MIXER_OUTPUTS
      inputs_count := n }

/-- `Reactor::Reactor(bool isDoubleReactor)`. -/
def mkReactor (isDoubleReactor : Bool) : Device :=
  { mkDevice with
      kind := .reactor
      inputAmount := 1
      outputAmount := if isDoubleReactor then 2 else 1 }

/-- Virtual `getDeviceType()`. -/
def Device.getDeviceType (d : Device) : String :=
  match d.kind with
  | .base => "Device"
  | .mixer => "Mixer"
  | .reactor => "Reactor"

/-- `setCalculated(c)`. -/
def Device.setCalculated (d : Device) (c : Bool) : Device := { d with calculated := c }

/-- `isCalculated()`. -/
def Device.isCalculated (d : Device) : Bool := d.calculated

/-- Virtual `addInput`: `Mixer::addInput` guards with `_inputs_count` and
throws "Too much inputs"; the base version (used by `Device` and `Reactor`)
guards with `inputAmount > 0 && inputs.size() >= inputAmount`. -/
def Device.addInput (d : Device) (s : StreamId) : Except DevError Device :=
  match d.kind with
  | .mixer =>
      if d.inputs.length ≥ d.inputs_count then Except.error (DevError.strErr "Too much inputs")
      else Except.ok { d with inputs := d.inputs ++ [s] }
  | _ =>
      if d.inputAmount > 0 ∧ d.inputs.length ≥ d.inputAmount then
        Except.error (DevError.strErr "INPUT STREAM LIMIT!")
      else Except.ok { d with inputs := d.inputs ++ [s] }

/-- Virtual `addOutput`: `Mixer::addOutput` guards with the constant
`MIXER_OUTPUTS` and throws "Too much outputs"; the base version guards with
`outputAmount > 0 && outputs.size() >= outputAmount`. -/
def Device.addOutput (d : Device) (s : StreamId) : Except DevError Device :=
  match d.kind with
  | .mixer =>
      if d.outputs.length ≥ MIXER_OUTPUTS then Except.error (DevError.strErr "Too much outputs")
      else Except.ok { d with outputs := d.outputs ++ [s] }
  | _ =>
      if d.outputAmount > 0 ∧ d.outputs.length ≥ d.outputAmount then
        Except.error (DevError.strErr "OUTPUT STREAM LIMIT!")
      else Except.ok { d with outputs := d.outputs ++ [s] }

/-- Loop body of `Device::checkForRecycle`: for each output, if
`isCalculated()` then throw `RecycleException(getDeviceType(), name)`. -/
def checkForRecycleLoop (d : Device) (σ : Store) : List StreamId → Except DevError Unit
  | [] => Except.ok ()
  | o :: rest =>
      if d.calculated then
        Except.error (DevError.recycle (Device.getDeviceType d) (Store.name σ o))
      else checkForRecycleLoop d σ rest

/-- `Device::checkForRecycle()`. -/
def Device.checkForRecycle (d : Device) (σ : Store) : Except DevError Unit :=
  checkForRecycleLoop d σ d.outputs

/-- Accumulation loop `sum_mass_flow += input_stream->getMassFlow()`. -/
def sumMassFlows (σ : Store) (l : List StreamId) : ℚ :=
  l.foldl (fun acc i => acc + Store.massFlow σ i) 0

/-- Loop writing the same value to every listed output stream in order. -/
def writeOutputs : List StreamId → ℚ → Store → Store
  | [], _, σ => σ
  | o :: rest, m, σ => writeOutputs rest m (Store.setMassFlow σ o m)

/-- `Mixer::updateOutputs`: recycle check, sum the inputs, fail if no
output is attached, else write `sum / outputs.size()` to every output and
set `calculated`.  The returned device and store are the object state when
the call ends (unchanged on every `throw`, since the source throws before
any mutation). -/
def Mixer.updateOutputs (d : Device) (σ : Store) : Except DevError Unit × Device × Store :=
  match Device.checkForRecycle d σ with
  | Except.error e => (Except.error e, d, σ)
  | Except.ok _ =>
      let sum_mass_flow := sumMassFlows σ d.inputs
      if d.outputs.isEmpty then
        (Except.error (DevError.strErr "Should set outputs before update"), d, σ)
      else
        let output_mass := sum_mass_flow / (d.outputs.length : ℚ)
        (Except.ok (), Device.setCalculated d true, writeOutputs d.outputs output_mass σ)

/-- `Reactor::updateOutputs`: recycle check, fail if no input, fail if the
output count differs from `outputAmount`, else write
`inputs[0].mass_flow / outputAmount` to outputs `0 .. outputAmount-1`
(after the count check this is exactly the whole output list) and set
`calculated`. -/
def Reactor.updateOutputs (d : Device) (σ : Store) : Except DevError Unit × Device × Store :=
  match Device.checkForRecycle d σ with
  | Except.error e => (Except.error e, d, σ)
  | Except.ok _ =>
      if d.inputs.isEmpty then (Except.error (DevError.strErr "No input stream"), d, σ)
      else if d.outputs.length ≠ d.outputAmount then
        (Except.error (DevError.strErr "Wrong number of outputs"), d, σ)
      else
        let inputMass := Store.massFlow σ (d.inputs.headD 0)
        (Except.ok (), Device.setCalculated d true,
          writeOutputs d.outputs (inputMass / (d.outputAmount : ℚ)) σ)

/-- Virtual `updateOutputs` (the base version only runs the recycle check). -/
def Device.updateOutputs (d : Device) (σ : Store) : Except DevError Unit × Device × Store :=
  match d.kind with
  | .mixer => Mixer.updateOutputs d σ
  | .reactor => Reactor.updateOutputs d σ
  | .base =>
      match Device.checkForRecycle d σ with
      | Except.error e => (Except.error e, d, σ)
      | Except.ok _ => (Except.ok (), d, σ)

/-- Device states reachable from a constructor by `addInput`, `addOutput`
and `updateOutputs` calls alone (`setCalculated` never called by the
client).  The store argument of an update is arbitrary: the environment
may set stream flows between calls. -/
inductive DReachable : Device → Prop where
  | device : DReachable mkDevice
  | mixer (n : Nat) : DReachable (mkMixer n)
  | reactor (b : Bool) : DReachable (mkReactor b)
  | addIn {d d' : Device} (s : StreamId) :
      DReachable d → Device.addInput d s = Except.ok d' → DReachable d'
  | addOut {d d' : Device} (s : StreamId) :
      DReachable d → Device.addOutput d s = Except.ok d' → DReachable d'
  | upd {d : Device} (σ : Store) :
      DReachable d → DReachable (Device.updateOutputs d σ).2.1

/-- The client call sequence `updateOutputs(); setCalculated(false);
updateOutputs()` on the same device, threading the stream heap through. -/
def rearmUpdate (d : Device) (σ : Store) : Except DevError Unit × Device × Store :=
  Device.updateOutputs (Device.setCalculated (Device.updateOutputs d σ).2.1 false)
    (Device.updateOutputs d σ).2.2

/-- Concrete stream heap for witnesses: stream 0 is "s1" carrying 10,
stream 1 is "s2" carrying 5, stream 2 is "s3" carrying 0. -/
def σW : Store := fun i =>
  if i = 0 then ⟨"s1", 10⟩ else if i = 1 then ⟨"s2", 5⟩ else if i = 2 then ⟨"s3", 0⟩
  else ⟨"s0", 0⟩

/-- Mixer(2) wired to inputs s1, s2 and output s3. -/
def mixW : Device := { mkMixer 2 with inputs := [0, 1], outputs := [2] }

/-- Reactor(true) wired to input s1 and outputs s2, s3. -/
def reacW : Device := { mkReactor true with inputs := [0], outputs := [1, 2] }

/-- Mixer(2) whose single output stream is its own first input stream
(legal wiring: `addInput` / `addOutput` perform no identity check). -/
def c1Alias : Device := { mkMixer 2 with inputs := [0, 1], outputs := [0] }

/-- An already-calculated Mixer(1) wired to input s1 and output s3. -/
def c3Dev : Device := { mkMixer 1 with inputs := [0], outputs := [2], calculated := true }

/-- Mixer(1) wired to input s1 and output s2, not yet calculated. -/
def c4pre : Device := { mkMixer 1 with inputs := [0], outputs := [1] }

/-- The state of `c4pre` after a successful `updateOutputs`. -/
def c4Dev : Device := { c4pre with calculated := true }

/-- Reactor(false) with an output attached but no input. -/
def reacNoIn : Device := { mkReactor false with outputs := [0] }

/-! ### Basic facts about the store and the helper loops -/

@[simp] theorem setCalculated_kind (d : Device) (c : Bool) :
    (Device.setCalculated d c).kind = d.kind := rfl

@[simp] theorem setCalculated_inputs (d : Device) (c : Bool) :
    (Device.setCalculated d c).inputs = d.inputs := rfl

@[simp] theorem setCalculated_outputs (d : Device) (c : Bool) :
    (Device.setCalculated d c).outputs = d.outputs := rfl

@[simp] theorem setCalculated_inputAmount (d : Device) (c : Bool) :
    (Device.setCalculated d c).inputAmount = d.inputAmount := rfl

@[simp] theorem setCalculated_outputAmount (d : Device) (c : Bool) :
    (Device.setCalculated d c).outputAmount = d.outputAmount := rfl

@[simp] theorem setCalculated_inputs_count (d : Device) (c : Bool) :
    (Device.setCalculated d c).inputs_count = d.inputs_count := rfl

@[simp] theorem setCalculated_calculated (d : Device) (c : Bool) :
    (Device.setCalculated d c).calculated = c := rfl

theorem massFlow_set_same (σ : Store) (i : StreamId) (m : ℚ) :
    Store.massFlow (Store.setMassFlow σ i m) i = m := by
  simp [Store.massFlow, Store.setMassFlow]

theorem massFlow_set_other (σ : Store) (i j : StreamId) (m : ℚ) (h : j ≠ i) :
    Store.massFlow (Store.setMassFlow σ i m) j = Store.massFlow σ j := by
  simp [Store.massFlow, Store.setMassFlow, h]

theorem massFlow_writeOutputs_not_mem (l : List StreamId) (m : ℚ) (σ : Store) (i : StreamId)
    (h : i ∉ l) : Store.massFlow (writeOutputs l m σ) i = Store.massFlow σ i := by
  induction l generalizing σ with
  | nil => rfl
  | cons o rest ih =>
      have h1 : i ≠ o := fun e => h (by simp [e])
      have h2 : i ∉ rest := fun e => h (by simp [e])
      simp only [writeOutputs]
      rw [ih _ h2]
      exact massFlow_set_other σ o i m h1

theorem massFlow_writeOutputs_mem (l : List StreamId) (m : ℚ) (σ : Store) (o : StreamId)
    (h : o ∈ l) : Store.massFlow (writeOutputs l m σ) o = m := by
  induction l generalizing σ with
  | nil => cases h
  | cons x rest ih =>
      simp only [writeOutputs]
      by_cases hr : o ∈ rest
      · exact ih _ hr
      · have hx : o = x := by
          rcases List.mem_cons.mp h with h1 | h1
          · exact h1
          · exact absurd h1 hr
        rw [massFlow_writeOutputs_not_mem rest m _ o hr, hx]
        exact massFlow_set_same σ x m

theorem foldl_add_eq (f : StreamId → ℚ) (l : List StreamId) (a : ℚ) :
    l.foldl (fun acc i => acc + f i) a = a + (l.map f).sum := by
  induction l generalizing a with
  | nil => simp
  | cons x rest ih => simp [ih]; ring

theorem sumMassFlows_eq (σ : Store) (l : List StreamId) :
    sumMassFlows σ l = (l.map (Store.massFlow σ)).sum := by
  simp [sumMassFlows, foldl_add_eq]

theorem sum_map_const_on (l : List StreamId) (f : StreamId → ℚ) (c : ℚ)
    (h : ∀ o ∈ l, f o = c) : (l.map f).sum = (l.length : ℚ) * c := by
  induction l with
  | nil => simp
  | cons x rest ih =>
      have hx := h x (List.mem_cons_self x rest)
      have ht := ih (fun o ho => h o (List.mem_cons_of_mem _ ho))
      simp [hx, ht]
      ring

theorem isEmpty_false_of_ne_nil {α : Type _} {l : List α} (h : l ≠ []) :
    l.isEmpty = false := by
  cases l with
  | nil => exact absurd rfl h
  | cons a t => rfl

/-! ### Characterisation of `checkForRecycle` -/

theorem checkLoop_not_calc {d : Device} (σ : Store) (h : d.calculated = false) :
    ∀ l, checkForRecycleLoop d σ l = Except.ok () := by
  intro l
  induction l with
  | nil => rfl
  | cons o rest ih => simp [checkForRecycleLoop, h, ih]

theorem checkForRecycle_not_calc {d : Device} (σ : Store) (h : d.calculated = false) :
    Device.checkForRecycle d σ = Except.ok () :=
  checkLoop_not_calc σ h d.outputs

theorem checkForRecycle_empty {d : Device} (σ : Store) (h : d.outputs = []) :
    Device.checkForRecycle d σ = Except.ok () := by
  unfold Device.checkForRecycle
  rw [h]
  rfl

theorem checkForRecycle_calc {d : Device} (σ : Store) {o : StreamId} {rest : List StreamId}
    (hc : d.calculated = true) (ho : d.outputs = o :: rest) :
    Device.checkForRecycle d σ =
      Except.error (DevError.recycle (Device.getDeviceType d) (Store.name σ o)) := by
  unfold Device.checkForRecycle
  rw [ho]
  simp [checkForRecycleLoop, hc]

/-! ### Characterisation of `addInput` / `addOutput` -/

theorem addInput_ok_eq {d : Device} {s : StreamId} {d' : Device}
    (h : Device.addInput d s = Except.ok d') : d' = { d with inputs := d.inputs ++ [s] } := by
  unfold Device.addInput at h
  split at h <;> split at h <;> simp_all

theorem addOutput_ok_eq {d : Device} {s : StreamId} {d' : Device}
    (h : Device.addOutput d s = Except.ok d') : d' = { d with outputs := d.outputs ++ [s] } := by
  unfold Device.addOutput at h
  split at h <;> split at h <;> simp_all

/-! ### Characterisation of `updateOutputs` -/

theorem update_calc_recycle {d : Device} (σ : Store) {o : StreamId} {rest : List StreamId}
    (hc : d.calculated = true) (ho : d.outputs = o :: rest) :
    Device.updateOutputs d σ =
      (Except.error (DevError.recycle (Device.getDeviceType d) (Store.name σ o)), d, σ) := by
  have hch := checkForRecycle_calc σ hc ho
  unfold Device.updateOutputs Mixer.updateOutputs Reactor.updateOutputs
  split <;> simp [hch]

theorem mixer_update_empty {d : Device} (σ : Store) (hk : d.kind = DeviceKind.mixer)
    (ho : d.outputs = []) :
    Device.updateOutputs d σ =
      (Except.error (DevError.strErr "Should set outputs before update"), d, σ) := by
  have hch := checkForRecycle_empty σ ho
  unfold Device.updateOutputs Mixer.updateOutputs
  rw [hk]
  simp [hch, ho]

theorem mixer_update_ok_eq {d : Device} (σ : Store) (hk : d.kind = DeviceKind.mixer)
    (hc : d.calculated = false) (ho : d.outputs ≠ []) :
    Device.updateOutputs d σ =
      (Except.ok (), Device.setCalculated d true,
        writeOutputs d.outputs (sumMassFlows σ d.inputs / (d.outputs.length : ℚ)) σ) := by
  have hch := checkForRecycle_not_calc σ hc
  have hoe := isEmpty_false_of_ne_nil ho
  unfold Device.updateOutputs Mixer.updateOutputs
  rw [hk]
  simp [hch, hoe]

theorem reactor_update_no_input {d : Device} (σ : Store) (hk : d.kind = DeviceKind.reactor)
    (hc : d.calculated = false) (hi : d.inputs = []) :
    Device.updateOutputs d σ = (Except.error (DevError.strErr "No input stream"), d, σ) := by
  have hch := checkForRecycle_not_calc σ hc
  unfold Device.updateOutputs Reactor.updateOutputs
  rw [hk]
  simp [hch, hi]

theorem reactor_update_wrong_outputs {d : Device} (σ : Store) (hk : d.kind = DeviceKind.reactor)
    (hc : d.calculated = false) (hi : d.inputs ≠ []) (ho : d.outputs.length ≠ d.outputAmount) :
    Device.updateOutputs d σ =
      (Except.error (DevError.strErr "Wrong number of outputs"), d, σ) := by
  have hch := checkForRecycle_not_calc σ hc
  have hie := isEmpty_false_of_ne_nil hi
  unfold Device.updateOutputs Reactor.updateOutputs
  rw [hk]
  simp [hch, hie, ho]

theorem reactor_update_ok_eq {d : Device} (σ : Store) (hk : d.kind = DeviceKind.reactor)
    (hpass : d.calculated = false ∨ d.outputs = []) (hi : d.inputs ≠ [])
    (ho : d.outputs.length = d.outputAmount) :
    Device.updateOutputs d σ =
      (Except.ok (), Device.setCalculated d true,
        writeOutputs d.outputs (Store.massFlow σ (d.inputs.headD 0) / (d.outputAmount : ℚ)) σ) := by
  have hch : Device.checkForRecycle d σ = Except.ok () := by
    rcases hpass with h | h
    · exact checkForRecycle_not_calc σ h
    · exact checkForRecycle_empty σ h
  have hie := isEmpty_false_of_ne_nil hi
  unfold Device.updateOutputs Reactor.updateOutputs
  rw [hk]
  simp [hch, hie, ho]

theorem update_shape (d : Device) (σ : Store) :
    (Device.updateOutputs d σ).1 = Except.ok () ∨
      ∃ e, Device.updateOutputs d σ = (Except.error e, d, σ) := by
  unfold Device.updateOutputs Mixer.updateOutputs Reactor.updateOutputs
  split
  · split
    · right; exact ⟨_, rfl⟩
    · split
      · right; exact ⟨_, rfl⟩
      · left; rfl
  · split
    · right; exact ⟨_, rfl⟩
    · split
      · right; exact ⟨_, rfl⟩
      · split
        · right; exact ⟨_, rfl⟩
        · left; rfl
  · split
    · right; exact ⟨_, rfl⟩
    · left; rfl

theorem update_error_state {d : Device} {σ : Store} {e : DevError}
    (h : (Device.updateOutputs d σ).1 = Except.error e) :
    Device.updateOutputs d σ = (Except.error e, d, σ) := by
  rcases update_shape d σ with hok | ⟨e', he⟩
  · rw [hok] at h
    cases h
  · have hee : e' = e := by
      rw [he] at h
      simpa using h
    rw [he, hee]

theorem update_not_calc_no_recycle {d : Device} (σ : Store) (hc : d.calculated = false)
    (t n : String) : (Device.updateOutputs d σ).1 ≠ Except.error (DevError.recycle t n) := by
  have hch := checkForRecycle_not_calc σ hc
  unfold Device.updateOutputs Mixer.updateOutputs Reactor.updateOutputs
  split
  · simp only [hch]
    split <;> simp
  · simp only [hch]
    split
    · simp
    · split <;> simp
  · simp only [hch]
    simp

theorem update_empty_no_recycle {d : Device} (σ : Store) (ho : d.outputs = [])
    (t n : String) : (Device.updateOutputs d σ).1 ≠ Except.error (DevError.recycle t n) := by
  have hch := checkForRecycle_empty σ ho
  unfold Device.updateOutputs Mixer.updateOutputs Reactor.updateOutputs
  split
  · simp only [hch]
    split <;> simp
  · simp only [hch]
    split
    · simp
    · split <;> simp
  · simp only [hch]
    simp

theorem mixer_ok_inv {d : Device} {σ : Store} (hk : d.kind = DeviceKind.mixer)
    (h : (Device.updateOutputs d σ).1 = Except.ok ()) :
    d.calculated = false ∧ d.outputs ≠ [] := by
  cases hc : d.calculated with
  | true =>
      cases ho : d.outputs with
      | nil => rw [mixer_update_empty σ hk ho] at h; simp at h
      | cons o rest => rw [update_calc_recycle σ hc ho] at h; simp at h
  | false =>
      refine ⟨rfl, fun ho => ?_⟩
      rw [mixer_update_empty σ hk ho] at h
      simp at h

theorem reactor_ok_inv {d : Device} {σ : Store} (hk : d.kind = DeviceKind.reactor)
    (h : (Device.updateOutputs d σ).1 = Except.ok ()) :
    (d.calculated = false ∨ d.outputs = []) ∧ d.inputs ≠ [] ∧
      d.outputs.length = d.outputAmount := by
  have hpass : d.calculated = false ∨ d.outputs = [] := by
    cases hc : d.calculated with
    | false => exact Or.inl rfl
    | true =>
        cases ho : d.outputs with
        | nil => exact Or.inr rfl
        | cons o rest => rw [update_calc_recycle σ hc ho] at h; simp at h
  have hch : Device.checkForRecycle d σ = Except.ok () := by
    rcases hpass with h' | h'
    · exact checkForRecycle_not_calc σ h'
    · exact checkForRecycle_empty σ h'
  have hi : d.inputs ≠ [] := by
    intro hie
    unfold Device.updateOutputs Reactor.updateOutputs at h
    rw [hk] at h
    simp [hch, hie] at h
  have ho2 : d.outputs.length = d.outputAmount := by
    by_contra hne
    unfold Device.updateOutputs Reactor.updateOutputs at h
    rw [hk] at h
    simp [hch, isEmpty_false_of_ne_nil hi, hne] at h
  exact ⟨hpass, hi, ho2⟩

theorem base_update_state (d : Device) (σ : Store) (hk : d.kind = DeviceKind.base) :
    (Device.updateOutputs d σ).2.1 = d ∧ (Device.updateOutputs d σ).2.2 = σ := by
  unfold Device.updateOutputs
  rw [hk]
  cases Device.checkForRecycle d σ with
  | error e => exact ⟨rfl, rfl⟩
  | ok u => exact ⟨rfl, rfl⟩

theorem update_result_device (d : Device) (σ : Store) :
    (Device.updateOutputs d σ).2.1 = d ∨
      ((Device.updateOutputs d σ).2.1 = Device.setCalculated d true ∧
        d.kind ≠ DeviceKind.base ∧
        (d.kind = DeviceKind.mixer → d.outputs ≠ []) ∧
        (d.kind = DeviceKind.reactor → d.outputs.length = d.outputAmount)) := by
  rcases update_shape d σ with hok | ⟨e, he⟩
  · cases hk : d.kind with
    | base => exact Or.inl (base_update_state d σ hk).1
    | mixer =>
        obtain ⟨hc, ho⟩ := mixer_ok_inv hk hok
        right
        rw [mixer_update_ok_eq σ hk hc ho]
        exact ⟨rfl, by decide, fun _ => ho, fun hr => absurd hr (by decide)⟩
    | reactor =>
        obtain ⟨hpass, hi, hlen⟩ := reactor_ok_inv hk hok
        right
        rw [reactor_update_ok_eq σ hk hpass hi hlen]
        exact ⟨rfl, by decide, fun hm => absurd hm (by decide), fun _ => hlen⟩
  · left
    rw [he]

theorem reachable_inv {d : Device} (hd : DReachable d) :
    (d.kind = DeviceKind.reactor → 0 < d.outputAmount) ∧
      (d.calculated = true → d.outputs ≠ []) := by
  induction hd with
  | device => simp [mkDevice]
  | mixer n => simp [mkMixer, mkDevice]
  | reactor b =>
      refine ⟨fun _ => ?_, by simp [mkReactor, mkDevice]⟩
      simp only [mkReactor, mkDevice]
      cases b <;> simp
  | @addIn d d' s hd heq ih =>
      have he := addInput_ok_eq heq
      subst he
      simpa using ih
  | @addOut d d' s hd heq ih =>
      have he := addOutput_ok_eq heq
      subst he
      refine ⟨fun hkr => ?_, fun _ => by simp⟩
      simpa using ih.1 (by simpa using hkr)
  | @upd d σ hd ih =>
      rcases update_result_device d σ with he | ⟨he, hnb, hm, hr⟩
      · rw [he]; exact ih
      · rw [he]
        refine ⟨fun hkr => ?_, fun _ => ?_⟩
        · simpa using ih.1 (by simpa using hkr)
        · simp only [setCalculated_outputs]
          cases hkd : d.kind with
          | base => exact absurd hkd hnb
          | mixer => exact hm hkd
          | reactor =>
              have hlen := hr hkd
              have hpos := ih.1 hkd
              exact List.length_pos.mp (by rw [hlen]; exact hpos)

/-! ### The claims -/

/-- C1 (amended): for every Mixer on which `updateOutputs` succeeds, every
attached output stream's mass_flow is set to the pre-call sum of all
attached input streams' mass_flow divided by the number of attached
outputs; with exactly one output this equals the plain sum of the inputs;
and every input stream that is not also attached as an output keeps its
mass_flow.  (The original claim, without that last restriction, is refuted
by `C1_counterexample`: an input stream aliased as the output stream is
overwritten by the call.) -/
theorem C1_mixer_sum (d : Device) (σ : Store) (hk : d.kind = DeviceKind.mixer)
    (hok : (Device.updateOutputs d σ).1 = Except.ok ()) :
    (∀ o ∈ d.outputs,
        Store.massFlow (Device.updateOutputs d σ).2.2 o =
          sumMassFlows σ d.inputs / (d.outputs.length : ℚ)) ∧
    (d.outputs.length = 1 → ∀ o ∈ d.outputs,
        Store.massFlow (Device.updateOutputs d σ).2.2 o = sumMassFlows σ d.inputs) ∧
    (∀ i ∈ d.inputs, i ∉ d.outputs →
        Store.massFlow (Device.updateOutputs d σ).2.2 i = Store.massFlow σ i) := by
  obtain ⟨hc, ho⟩ := mixer_ok_inv hk hok
  rw [mixer_update_ok_eq σ hk hc ho]
  refine ⟨?_, ?_, ?_⟩
  · intro o hmem
    exact massFlow_writeOutputs_mem _ _ _ _ hmem
  · intro hlen o hmem
    rw [massFlow_writeOutputs_mem _ _ _ _ hmem, hlen]
    norm_num
  · intro i _ hnot
    exact massFlow_writeOutputs_not_mem _ _ _ _ hnot

/-- Witness for `C1_mixer_sum`: Mixer(2) with inputs 10.0 and 5.0 and a
distinct output gives output 15.0, and input stream 0 still carries 10. -/
theorem C1_mixer_sum_witness :
    Store.massFlow (Device.updateOutputs mixW σW).2.2 2 = 15 ∧
    Store.massFlow (Device.updateOutputs mixW σW).2.2 0 = 10 := by
  have h := C1_mixer_sum mixW σW rfl (by decide)
  constructor
  · have h2 := h.2.1 (by decide) 2 (by decide)
    rw [h2]
    simp [sumMassFlows, List.foldl, Store.massFlow, σW, mixW, mkMixer, mkDevice]
    norm_num
  · have h3 := h.2.2 0 (by decide) (by decide)
    rw [h3]
    simp [Store.massFlow, σW]

/-- C1 counterexample: `c1Alias` is a Mixer(2), reachable by legal calls,
whose single output stream is its own first input stream (streams are
shared and `addOutput` performs no identity check).  `updateOutputs`
succeeds and overwrites that input stream's mass_flow from 10 to 15, so
"the input streams' mass_flow values are left unchanged" is false. -/
theorem C1_counterexample :
    DReachable c1Alias ∧
    (Device.updateOutputs c1Alias σW).1 = Except.ok () ∧
    (0 : StreamId) ∈ c1Alias.inputs ∧
    Store.massFlow σW 0 = 10 ∧
    Store.massFlow (Device.updateOutputs c1Alias σW).2.2 0 = 15 := by
  refine ⟨?_, by decide, by decide, by simp [Store.massFlow, σW], ?_⟩
  · have h0 : DReachable (mkMixer 2) := DReachable.mixer 2
    have h1 : DReachable ({ mkMixer 2 with inputs := [0] }) :=
      DReachable.addIn 0 h0 (by decide)
    have h2 : DReachable ({ mkMixer 2 with inputs := [0, 1] }) :=
      DReachable.addIn 1 h1 (by decide)
    exact DReachable.addOut 0 h2 (by decide)
  · simp [Device.updateOutputs, Mixer.updateOutputs, Device.checkForRecycle,
      checkForRecycleLoop, c1Alias, mkMixer, mkDevice, MIXER_OUTPUTS, sumMassFlows,
      List.foldl, writeOutputs, Store.setMassFlow, Store.massFlow, Store.name, σW,
      Device.setCalculated]
    norm_num

/-- C2: for every Reactor on which `updateOutputs` succeeds, there are
exactly `outputAmount` attached outputs and each of them is set to
`inputs[0].mass_flow / outputAmount` (input read before any write). -/
theorem C2_reactor_split (d : Device) (σ : Store) (hk : d.kind = DeviceKind.reactor)
    (hok : (Device.updateOutputs d σ).1 = Except.ok ()) :
    d.outputs.length = d.outputAmount ∧
    ∀ o ∈ d.outputs,
      Store.massFlow (Device.updateOutputs d σ).2.2 o =
        Store.massFlow σ (d.inputs.headD 0) / (d.outputAmount : ℚ) := by
  obtain ⟨hpass, hi, hlen⟩ := reactor_ok_inv hk hok
  refine ⟨hlen, ?_⟩
  rw [reactor_update_ok_eq σ hk hpass hi hlen]
  intro o hmem
  exact massFlow_writeOutputs_mem _ _ _ _ hmem

/-- Witness for `C2_reactor_split`: Reactor(true) with input 10.0 gives
each of its two outputs 5.0. -/
theorem C2_reactor_split_witness :
    Store.massFlow (Device.updateOutputs reacW σW).2.2 1 = 5 ∧
    Store.massFlow (Device.updateOutputs reacW σW).2.2 2 = 5 := by
  have h := C2_reactor_split reacW σW rfl (by decide)
  constructor
  · rw [h.2 1 (by decide)]
    simp [Store.massFlow, σW, reacW, mkReactor, mkDevice, List.headD]
    norm_num
  · rw [h.2 2 (by decide)]
    simp [Store.massFlow, σW, reacW, mkReactor, mkDevice, List.headD]
    norm_num

/-- C3: for every Device (base, Mixer or Reactor), `updateOutputs` raises
RecycleDetected iff `calculated` is true and at least one output stream is
attached; the error names the device type and the first attached output
stream, and the call returns with device and store untouched (the check
runs at the start, before any output mutation). -/
theorem C3_recycle_iff (d : Device) (σ : Store) :
    ((∃ t n, (Device.updateOutputs d σ).1 = Except.error (DevError.recycle t n)) ↔
      (d.calculated = true ∧ d.outputs ≠ [])) ∧
    (∀ o rest, d.calculated = true → d.outputs = o :: rest →
      Device.updateOutputs d σ =
        (Except.error (DevError.recycle (Device.getDeviceType d) (Store.name σ o)), d, σ)) := by
  refine ⟨⟨?_, ?_⟩, ?_⟩
  · rintro ⟨t, n, herr⟩
    constructor
    · cases hc : d.calculated with
      | true => rfl
      | false => exact absurd herr (update_not_calc_no_recycle σ hc t n)
    · intro ho
      exact absurd herr (update_empty_no_recycle σ ho t n)
  · rintro ⟨hc, ho⟩
    cases houts : d.outputs with
    | nil => exact absurd houts ho
    | cons o rest =>
        refine ⟨Device.getDeviceType d, Store.name σ o, ?_⟩
        rw [update_calc_recycle σ hc houts]
  · intro o rest hc ho
    exact update_calc_recycle σ hc ho

/-- Witness for `C3_recycle_iff`: an already-calculated Mixer(1) with
output stream "s3" fails with the recycle error naming "Mixer" and "s3",
leaving device and store unchanged. -/
theorem C3_recycle_iff_witness :
    Device.updateOutputs c3Dev σW =
      (Except.error (DevError.recycle "Mixer" "s3"), c3Dev, σW) :=
  (C3_recycle_iff c3Dev σW).2 2 [] rfl rfl

/-- C4: state machine over {Fresh, Calculated} per reachable device, under
addInput / addOutput / updateOutputs only: the adds never change the flag;
a Fresh device's flag becomes true only through a fully successful
`updateOutputs`; in state Calculated every `updateOutputs` attempt fails
with RecycleDetected (device and store untouched); no operation resets the
flag; and a Fresh device never raises RecycleDetected. -/
theorem C4_state_machine (d : Device) (hd : DReachable d) :
    (∀ s d', Device.addInput d s = Except.ok d' → d'.calculated = d.calculated) ∧
    (∀ s d', Device.addOutput d s = Except.ok d' → d'.calculated = d.calculated) ∧
    (∀ σ, d.calculated = false → (Device.updateOutputs d σ).2.1.calculated = true →
      (Device.updateOutputs d σ).1 = Except.ok ()) ∧
    (∀ σ, d.calculated = true → ∃ o rest, d.outputs = o :: rest ∧
      Device.updateOutputs d σ =
        (Except.error (DevError.recycle (Device.getDeviceType d) (Store.name σ o)), d, σ)) ∧
    (∀ σ, d.calculated = true → (Device.updateOutputs d σ).2.1.calculated = true) ∧
    (∀ σ, d.calculated = false → ∀ t n,
      (Device.updateOutputs d σ).1 ≠ Except.error (DevError.recycle t n)) := by
  refine ⟨?_, ?_, ?_, ?_, ?_, ?_⟩
  · intro s d' h
    rw [addInput_ok_eq h]
  · intro s d' h
    rw [addOutput_ok_eq h]
  · intro σ hc hc'
    rcases update_shape d σ with hok | ⟨e, he⟩
    · exact hok
    · rw [he] at hc'
      simp at hc'
      simp [hc] at hc'
  · intro σ hc
    have hne := (reachable_inv hd).2 hc
    cases houts : d.outputs with
    | nil => exact absurd houts hne
    | cons o rest => exact ⟨o, rest, rfl, update_calc_recycle σ hc houts⟩
  · intro σ hc
    rcases update_result_device d σ with he | ⟨he, _, _, _⟩
    · rw [he]
      exact hc
    · rw [he]
      rfl
  · intro σ hc t n
    exact update_not_calc_no_recycle σ hc t n

/-- Witness for `C4_state_machine`: the calculated state `c4Dev` is
reached by construct, wire, update; the second update then fails with the
recycle error naming "Mixer" and output "s2". -/
theorem C4_state_machine_witness :
    Device.updateOutputs c4Dev σW =
      (Except.error (DevError.recycle "Mixer" "s2"), c4Dev, σW) := by
  have h0 : DReachable (mkMixer 1) := DReachable.mixer 1
  have h1 : DReachable ({ mkMixer 1 with inputs := [0] }) := DReachable.addIn 0 h0 (by decide)
  have h2 : DReachable c4pre := DReachable.addOut 1 h1 (by decide)
  have h3 : DReachable ((Device.updateOutputs c4pre σW).2.1) := DReachable.upd σW h2
  have h4 : (Device.updateOutputs c4pre σW).2.1 = c4Dev := by decide
  rw [h4] at h3
  obtain ⟨o, rest, ho, heq⟩ := (C4_state_machine c4Dev h3).2.2.2.1 σW rfl
  have ho' : (1 : StreamId) :: [] = o :: rest := ho
  injection ho' with hoa hob
  subst hoa
  exact heq

/-- C5: for every Reactor (its configured `outputAmount` is positive) on
which `updateOutputs` succeeds, the sum of the output streams' mass_flow
afterwards equals the input stream's mass_flow exactly, hence within the
0.01 tolerance. -/
theorem C5_reactor_conservation (d : Device) (σ : Store) (hk : d.kind = DeviceKind.reactor)
    (hA : 0 < d.outputAmount) (hok : (Device.updateOutputs d σ).1 = Except.ok ()) :
    sumMassFlows (Device.updateOutputs d σ).2.2 d.outputs =
      Store.massFlow σ (d.inputs.headD 0) ∧
    |sumMassFlows (Device.updateOutputs d σ).2.2 d.outputs -
      Store.massFlow σ (d.inputs.headD 0)| < 1 / 100 := by
  obtain ⟨hpass, hi, hlen⟩ := reactor_ok_inv hk hok
  have hq : (d.outputAmount : ℚ) ≠ 0 := Nat.cast_ne_zero.mpr hA.ne'
  have hexact : sumMassFlows (Device.updateOutputs d σ).2.2 d.outputs =
      Store.massFlow σ (d.inputs.headD 0) := by
    rw [reactor_update_ok_eq σ hk hpass hi hlen]
    rw [sumMassFlows_eq]
    rw [sum_map_const_on _ _ (Store.massFlow σ (d.inputs.headD 0) / (d.outputAmount : ℚ))
      (fun o ho => massFlow_writeOutputs_mem _ _ _ _ ho)]
    rw [hlen, mul_comm, div_mul_cancel₀ _ hq]
  refine ⟨hexact, ?_⟩
  rw [hexact, sub_self, abs_zero]
  norm_num

/-- Witness for `C5_reactor_conservation`: Reactor(true) with input 10.0
has output sum 10.0 after the update. -/
theorem C5_reactor_conservation_witness :
    sumMassFlows (Device.updateOutputs reacW σW).2.2 reacW.outputs = 10 := by
  have h := C5_reactor_conservation reacW σW rfl (by decide) (by decide)
  rw [h.1]
  simp [Store.massFlow, σW, reacW, mkReactor, mkDevice, List.headD]

/-- C6: capacity enforcement for a configured positive capacity N: while
strictly below N the add succeeds and appends the stream at the end (no
identity check, duplicates allowed); at exactly N it fails, with the
Mixer-specific wording for Mixer inputs/outputs (outputs capped by the
constant `MIXER_OUTPUTS`) and the base wording for base Device and
Reactor. -/
theorem C6_capacity (d : Device) (s : StreamId) (N : Nat) (hN : 0 < N) :
    (d.kind = DeviceKind.mixer → d.inputs_count = N →
      (d.inputs.length < N →
        Device.addInput d s = Except.ok { d with inputs := d.inputs ++ [s] }) ∧
      (d.inputs.length = N →
        Device.addInput d s = Except.error (DevError.strErr "Too much inputs"))) ∧
    (d.kind = DeviceKind.mixer →
      (d.outputs.length < MIXER_OUTPUTS →
        Device.addOutput d s = Except.ok { d with outputs := d.outputs ++ [s] }) ∧
      (d.outputs.length = MIXER_OUTPUTS →
        Device.addOutput d s = Except.error (DevError.strErr "Too much outputs"))) ∧
    (d.kind ≠ DeviceKind.mixer → d.inputAmount = N →
      (d.inputs.length < N →
        Device.addInput d s = Except.ok { d with inputs := d.inputs ++ [s] }) ∧
      (d.inputs.length = N →
        Device.addInput d s = Except.error (DevError.strErr "INPUT STREAM LIMIT!"))) ∧
    (d.kind ≠ DeviceKind.mixer → d.outputAmount = N →
      (d.outputs.length < N →
        Device.addOutput d s = Except.ok { d with outputs := d.outputs ++ [s] }) ∧
      (d.outputs.length = N →
        Device.addOutput d s = Except.error (DevError.strErr "OUTPUT STREAM LIMIT!"))) := by
  cases hk : d.kind with
  | mixer =>
      refine ⟨fun _ hcnt => ⟨fun hlt => ?_, fun heq => ?_⟩,
              fun _ => ⟨fun hlt => ?_, fun heq => ?_⟩,
              fun hne => absurd rfl hne, fun hne => absurd rfl hne⟩
      · unfold Device.addInput
        rw [hk]
        dsimp only
        rw [if_neg (by omega)]
      · unfold Device.addInput
        rw [hk]
        dsimp only
        rw [if_pos (by omega)]
      · unfold Device.addOutput
        rw [hk]
        dsimp only
        rw [if_neg (by omega)]
      · unfold Device.addOutput
        rw [hk]
        dsimp only
        rw [if_pos (by omega)]
  | base =>
      refine ⟨fun h => absurd h (by decide), fun h => absurd h (by decide),
              fun _ hamt => ⟨fun hlt => ?_, fun heq => ?_⟩,
              fun _ hamt => ⟨fun hlt => ?_, fun heq => ?_⟩⟩
      · unfold Device.addInput
        rw [hk]
        dsimp only
        rw [if_neg (by omega)]
      · unfold Device.addInput
        rw [hk]
        dsimp only
        rw [if_pos (by omega)]
      · unfold Device.addOutput
        rw [hk]
        dsimp only
        rw [if_neg (by omega)]
      · unfold Device.addOutput
        rw [hk]
        dsimp only
        rw [if_pos (by omega)]
  | reactor =>
      refine ⟨fun h => absurd h (by decide), fun h => absurd h (by decide),
              fun _ hamt => ⟨fun hlt => ?_, fun heq => ?_⟩,
              fun _ hamt => ⟨fun hlt => ?_, fun heq => ?_⟩⟩
      · unfold Device.addInput
        rw [hk]
        dsimp only
        rw [if_neg (by omega)]
      · unfold Device.addInput
        rw [hk]
        dsimp only
        rw [if_pos (by omega)]
      · unfold Device.addOutput
        rw [hk]
        dsimp only
        rw [if_neg (by omega)]
      · unfold Device.addOutput
        rw [hk]
        dsimp only
        rw [if_pos (by omega)]

/-- Witness for `C6_capacity`: a fresh Mixer(2) accepts a first input; the
full `mixW` rejects a third input with "Too much inputs"; a Reactor with
one output attached rejects a second with the base wording. -/
theorem C6_capacity_witness :
    Device.addInput (mkMixer 2) 0 = Except.ok { mkMixer 2 with inputs := [(0 : StreamId)] } ∧
    Device.addInput mixW 3 = Except.error (DevError.strErr "Too much inputs") ∧
    Device.addOutput reacNoIn 1 = Except.error (DevError.strErr "OUTPUT STREAM LIMIT!") := by
  refine ⟨?_, ?_, ?_⟩
  · have h := ((C6_capacity (mkMixer 2) 0 2 (by decide)).1 rfl rfl).1 (by decide)
    exact h
  · exact ((C6_capacity mixW 3 2 (by decide)).1 rfl rfl).2 (by decide)
  · exact ((C6_capacity reacNoIn 1 1 (by decide)).2.2.2 (by decide) rfl).2 (by decide)

/-- C7: whenever `updateOutputs` on a reachable Mixer or Reactor fails
after the recycle check passed (a plain string error), the call leaves
device and store exactly as they were, and the calculated flag was (and
stays) false, so the call can be retried. -/
theorem C7_failed_update_unchanged (d : Device) (σ : Store) (hd : DReachable d) (msg : String)
    (hfail : (Device.updateOutputs d σ).1 = Except.error (DevError.strErr msg)) :
    Device.updateOutputs d σ = (Except.error (DevError.strErr msg), d, σ) ∧
      d.calculated = false := by
  refine ⟨update_error_state hfail, ?_⟩
  cases hc : d.calculated with
  | false => rfl
  | true =>
      have hne := (reachable_inv hd).2 hc
      cases houts : d.outputs with
      | nil => exact absurd houts hne
      | cons o rest =>
          rw [update_calc_recycle σ hc houts] at hfail
          simp at hfail

/-- Witness for `C7_failed_update_unchanged`: a fresh Mixer(2) with no
outputs fails with "Should set outputs before update" and is returned
unchanged with its flag still false. -/
theorem C7_failed_update_unchanged_witness :
    Device.updateOutputs (mkMixer 2) σW =
      (Except.error (DevError.strErr "Should set outputs before update"), mkMixer 2, σW) ∧
    (mkMixer 2).calculated = false :=
  C7_failed_update_unchanged (mkMixer 2) σW (DReachable.mixer 2)
    "Should set outputs before update" (by decide)

/-- C8: precondition order on a never-calculated device: a Reactor with no
input fails with "No input stream" whatever its outputs; a Reactor with an
input but an output count different from `outputAmount` fails with "Wrong
number of outputs"; a Mixer with no output fails with "Should set outputs
before update" whatever its inputs.  Each failure returns the state
untouched. -/
theorem C8_precondition_order (d : Device) (σ : Store) (hc : d.calculated = false) :
    (d.kind = DeviceKind.reactor → d.inputs = [] →
      Device.updateOutputs d σ = (Except.error (DevError.strErr "No input stream"), d, σ)) ∧
    (d.kind = DeviceKind.reactor → d.inputs ≠ [] → d.outputs.length ≠ d.outputAmount →
      Device.updateOutputs d σ =
        (Except.error (DevError.strErr "Wrong number of outputs"), d, σ)) ∧
    (d.kind = DeviceKind.mixer → d.outputs = [] →
      Device.updateOutputs d σ =
        (Except.error (DevError.strErr "Should set outputs before update"), d, σ)) :=
  ⟨fun hk hi => reactor_update_no_input σ hk hc hi,
   fun hk hi ho => reactor_update_wrong_outputs σ hk hc hi ho,
   fun hk ho => mixer_update_empty σ hk ho⟩

/-- Witness for `C8_precondition_order`: a Reactor with its output fully
attached but no input fails with "No input stream". -/
theorem C8_precondition_order_witness :
    Device.updateOutputs reacNoIn σW =
      (Except.error (DevError.strErr "No input stream"), reacNoIn, σW) :=
  (C8_precondition_order reacNoIn σW rfl).1 rfl rfl

/-- C9: every Mixer or Reactor reachable from construction by addInput,
addOutput and updateOutputs (never `setCalculated`) satisfies: calculated
implies the output list is non-empty — so the recycle check, which is
skipped on an empty output list, always trips on a calculated device. -/
theorem C9_calculated_outputs_nonempty (d : Device) (hd : DReachable d)
    (hk : d.kind = DeviceKind.mixer ∨ d.kind = DeviceKind.reactor)
    (hc : d.calculated = true) : d.outputs ≠ [] :=
  (reachable_inv hd).2 hc

/-- Witness for `C9_calculated_outputs_nonempty` at the reachable
calculated device `c4Dev`. -/
theorem C9_calculated_outputs_nonempty_witness : c4Dev.outputs ≠ [] := by
  have h0 : DReachable (mkMixer 1) := DReachable.mixer 1
  have h1 : DReachable ({ mkMixer 1 with inputs := [0] }) := DReachable.addIn 0 h0 (by decide)
  have h2 : DReachable c4pre := DReachable.addOut 1 h1 (by decide)
  have h3 : DReachable ((Device.updateOutputs c4pre σW).2.1) := DReachable.upd σW h2
  have h4 : (Device.updateOutputs c4pre σW).2.1 = c4Dev := by decide
  rw [h4] at h3
  exact C9_calculated_outputs_nonempty c4Dev h3 (Or.inl rfl) rfl

/-- C10: after a successful `updateOutputs` on a Mixer or Reactor, calling
`setCalculated(false)` re-arms the device: the next `updateOutputs` with
the same attached streams succeeds (in particular raises no
RecycleDetected), recomputes the outputs from the streams' current values,
and sets the flag back to true. -/
theorem C10_rearm (d : Device) (σ : Store)
    (hk : d.kind = DeviceKind.mixer ∨ d.kind = DeviceKind.reactor)
    (hok : (Device.updateOutputs d σ).1 = Except.ok ()) :
    (rearmUpdate d σ).1 = Except.ok () ∧
    (∀ t n, (rearmUpdate d σ).1 ≠ Except.error (DevError.recycle t n)) ∧
    (rearmUpdate d σ).2.1 = Device.setCalculated d true ∧
    (d.kind = DeviceKind.mixer → (rearmUpdate d σ).2.2 =
      writeOutputs d.outputs
        (sumMassFlows (Device.updateOutputs d σ).2.2 d.inputs / (d.outputs.length : ℚ))
        (Device.updateOutputs d σ).2.2) ∧
    (d.kind = DeviceKind.reactor → (rearmUpdate d σ).2.2 =
      writeOutputs d.outputs
        (Store.massFlow (Device.updateOutputs d σ).2.2 (d.inputs.headD 0) /
          (d.outputAmount : ℚ))
        (Device.updateOutputs d σ).2.2) := by
  rcases hk with hk | hk
  · obtain ⟨hc, ho⟩ := mixer_ok_inv hk hok
    have hupd := mixer_update_ok_eq σ hk hc ho
    have hd2eq : Device.setCalculated (Device.updateOutputs d σ).2.1 false =
        Device.setCalculated d false := by
      rw [hupd]
      rfl
    have hk2 : (Device.setCalculated d false).kind = DeviceKind.mixer := by simpa using hk
    have ho2 : (Device.setCalculated d false).outputs ≠ [] := by simpa using ho
    have h2 := @mixer_update_ok_eq (Device.setCalculated d false)
      ((Device.updateOutputs d σ).2.2) hk2 rfl ho2
    have hre : rearmUpdate d σ =
        Device.updateOutputs (Device.setCalculated d false) (Device.updateOutputs d σ).2.2 := by
      unfold rearmUpdate
      rw [hd2eq]
    rw [hre, h2]
    exact ⟨rfl, by simp, rfl, fun _ => rfl, fun hr => absurd (hk.symm.trans hr) (by decide)⟩
  · obtain ⟨hpass, hi, hlen⟩ := reactor_ok_inv hk hok
    have hupd := reactor_update_ok_eq σ hk hpass hi hlen
    have hd2eq : Device.setCalculated (Device.updateOutputs d σ).2.1 false =
        Device.setCalculated d false := by
      rw [hupd]
      rfl
    have hk2 : (Device.setCalculated d false).kind = DeviceKind.reactor := by simpa using hk
    have hi2 : (Device.setCalculated d false).inputs ≠ [] := by simpa using hi
    have hlen2 : (Device.setCalculated d false).outputs.length =
        (Device.setCalculated d false).outputAmount := by simpa using hlen
    have h2 := @reactor_update_ok_eq (Device.setCalculated d false)
      ((Device.updateOutputs d σ).2.2) hk2 (Or.inl rfl) hi2 hlen2
    have hre : rearmUpdate d σ =
        Device.updateOutputs (Device.setCalculated d false) (Device.updateOutputs d σ).2.2 := by
      unfold rearmUpdate
      rw [hd2eq]
    rw [hre, h2]
    exact ⟨rfl, by simp, rfl, fun hm => absurd (hk.symm.trans hm) (by decide), fun _ => rfl⟩

/-- Witness for `C10_rearm`: the re-armed `mixW` updates again
successfully and ends calculated. -/
theorem C10_rearm_witness :
    (rearmUpdate mixW σW).1 = Except.ok () ∧ (rearmUpdate mixW σW).2.1.calculated = true := by
  have h := C10_rearm mixW σW (Or.inl rfl) (by decide)
  refine ⟨h.1, ?_⟩
  rw [h.2.2.1]
  rfl

end LabDevice
